import Mathlib

/-!
Verification of the transport-abstracting RPC client of the n8n MCP control
panel (`src/app.py`, class `MCPClient`).

The embedding models the client state as an explicit structure and the two
`send_message` paths as pure functions over that state, parameterised by the
outcomes of the external library calls (`uuid.uuid4`, the volatile
`ws_connected` flag written by the background receive thread, `self.ws.send`,
`event.wait`, `requests.post`).  Python dictionaries are association lists in
insertion order; an uncaught Python exception is an `Except.error` result,
while every normal `return` is `Except.ok`.
-/

namespace PCM

/-- JSON values as produced by `json.loads` / consumed by `json.dumps`.
Objects keep their fields in insertion order, like Python dicts. -/
inductive Json where
  | null
  | bool (b : Bool)
  | num (n : Int)
  | str (s : String)
  | arr (xs : List Json)
  | obj (fields : List (String × Json))

mutual

/-- Value equality on JSON, as Python `==` behaves on decoded JSON values
(used for dict-key membership in `message_callbacks`). -/
def Json.beq : Json → Json → Bool
  | .null, .null => true
  | .bool a, .bool b => a == b
  | .num a, .num b => a == b
  | .str a, .str b => a == b
  | .arr xs, .arr ys => beqArr xs ys
  | .obj fs, .obj gs => beqFields fs gs
  | _, _ => false

/-- Element-wise equality of JSON arrays. -/
def beqArr : List Json → List Json → Bool
  | [], [] => true
  | x :: xs, y :: ys => Json.beq x y && beqArr xs ys
  | _, _ => false

/-- Field-wise equality of JSON objects. -/
def beqFields : List (String × Json) → List (String × Json) → Bool
  | [], [] => true
  | (k, v) :: xs, (l, w) :: ys => k == l && Json.beq v w && beqFields xs ys
  | _, _ => false

end

/-- Character escaping inside a JSON string literal (quotes and backslashes;
enough for the identifiers and operation names this client sends). -/
def escapeChar (c : Char) : String :=
  if c = '\\' then "\\\\" else if c = '\x22' then "\\\x22" else String.singleton c

/-- Body of a JSON string literal. -/
def escapeString (s : String) : String :=
  String.join (s.toList.map escapeChar)

mutual

/-- Serialisation to the wire format, as Python `json.dumps` with its default
separators. -/
def Json.dumps : Json → String
  | .null => "null"
  | .bool true => "true"
  | .bool false => "false"
  | .num n => toString n
  | .str s => "\x22" ++ escapeString s ++ "\x22"
  | .arr xs => "[" ++ dumpsArr xs ++ "]"
  | .obj fs => "\x7b" ++ dumpsFields fs ++ "\x7d"

/-- Comma-separated serialisation of array elements. -/
def dumpsArr : List Json → String
  | [] => ""
  | [x] => Json.dumps x
  | x :: y :: xs => Json.dumps x ++ ", " ++ dumpsArr (y :: xs)

/-- Comma-separated serialisation of object fields. -/
def dumpsFields : List (String × Json) → String
  | [] => ""
  | [(k, v)] => Json.dumps (.str k) ++ ": " ++ Json.dumps v
  | (k, v) :: f :: fs => Json.dumps (.str k) ++ ": " ++ Json.dumps v ++ ", " ++ dumpsFields (f :: fs)

end

/-- Python truthiness test (`if not x:`) on a JSON value. -/
def Json.falsy : Json → Bool
  | .null => true
  | .bool b => !b
  | .num n => n == 0
  | .str s => s == ""
  | .arr xs => xs.isEmpty
  | .obj fs => fs.isEmpty

/-- A Python dict with string keys, in insertion order. -/
abbrev Dict := List (String × Json)

/-- Python `d.get(key)`: the value at `key`, or `None` when absent. -/
def dictGet : Dict → String → Option Json
  | [], _ => none
  | (k, v) :: rest, key => if k == key then some v else dictGet rest key

/-- Python `d[key] = v`: overwrite in place, or append a new key. -/
def dictSet : Dict → String → Json → Dict
  | [], key, v => [(key, v)]
  | (k, w) :: rest, key, v =>
      if k == key then (key, v) :: rest else (k, w) :: dictSet rest key v

/-- Membership of a JSON value in a list of dict keys (Python `x in d`). -/
def jmem (x : Json) : List Json → Bool
  | [] => false
  | y :: ys => Json.beq y x || jmem x ys

/-- Removal of a dict key (Python `del d[x]`; keys are unique in a dict, so
removing the first occurrence is exact). -/
def eraseKey (x : Json) : List Json → List Json
  | [] => []
  | y :: ys => if Json.beq y x then ys else y :: eraseKey x ys

/-- The closure state owned by one `send_message` call on the WebSocket path:
the `result` slot written by the callback and the `threading.Event` flag. -/
structure PendingCall where
  result : Json
  signalled : Bool

/-- Lookup of a call record by its correlation id. -/
def recordGet : List (Json × PendingCall) → Json → Option PendingCall
  | [], _ => none
  | (k, pc) :: rest, key => if Json.beq k key then some pc else recordGet rest key

/-- Create or overwrite a call record (a fresh closure per `send_message`). -/
def recordSet : List (Json × PendingCall) → Json → PendingCall → List (Json × PendingCall)
  | [], key, pc => [(key, pc)]
  | (k, old) :: rest, key, pc =>
      if Json.beq k key then (key, pc) :: rest else (k, old) :: recordSet rest key pc

/-- Effect of invoking the registered callback with `data`: the matching
record's result slot is set and its completion event is signalled. -/
def deliverRecord : List (Json × PendingCall) → Json → Json → List (Json × PendingCall)
  | [], _, _ => []
  | (k, pc) :: rest, key, data =>
      if Json.beq k key then (k, ⟨data, true⟩) :: rest
      else (k, pc) :: deliverRecord rest key data

/-- State of one `MCPClient` instance (`src/app.py` lines 117-130), together
with the process state it touches.  `message_callbacks` holds the keys of the
Python callback dict; `records` holds each issued call's closure state, which
outlives its table entry.  `connection_status` mirrors
`st.session_state.connection_status`; `connect_attempts` counts the
`WebSocketApp` objects created (each paired with a new `run_forever` thread). -/
structure MCPClient where
  server_url : String
  api_key : Option String
  connection_type : String
  timeout : Nat
  max_retries : Nat
  retry_delay : Nat
  ws : Option String
  ws_connected : Bool
  message_callbacks : List Json
  records : List (Json × PendingCall)
  connection_status : String
  connect_attempts : Nat

/-- Python truthiness of an optional string (`if self.api_key:`). -/
def truthyStr : Option String → Bool
  | none => false
  | some s => !(s == "")

/-- Embedding of `MCPClient.get_headers` (lines 131-137). -/
def get_headers (c : MCPClient) : List (String × String) :=
  if truthyStr c.api_key then
    [("Content-Type", "application/json"),
     ("Authorization", "Bearer " ++ c.api_key.getD "")]
  else
    [("Content-Type", "application/json")]

/-- Scheme rewriting done by `connect_websocket` (lines 143-147); note the
source uses `str.replace`, which replaces every occurrence. -/
def ws_rewrite (u : String) : String :=
  if u.startsWith "http://" then u.replace "http://" "ws://"
  else if u.startsWith "https://" then u.replace "https://" "wss://"
  else u

/-- Embedding of `MCPClient.connect_websocket` (lines 139-187).  When the
configured transport is not WebSocket it returns immediately; otherwise it
unconditionally builds a new `WebSocketApp` at the rewritten URL and starts a
new daemon thread running it, regardless of any existing connection. -/
def connect_websocket (c : MCPClient) : MCPClient :=
  if c.connection_type = "WebSocket" then
    { c with ws := some (ws_rewrite c.server_url),
             connect_attempts := c.connect_attempts + 1 }
  else c

/-- Embedding of the `on_message` handler (lines 149-159), applied to the
outcome of `json.loads` on the inbound frame.  The whole handler body runs
inside `try/except`, so a decode failure, a non-dict payload, or any other
exception is logged and leaves the state unchanged. -/
def on_message (c : MCPClient) (decoded : Except String Json) : MCPClient :=
  match decoded with
  | .error _ => c
  | .ok data =>
    match data with
    | .obj fs =>
        let mid := (dictGet fs "id").getD .null
        if jmem mid c.message_callbacks then
          { c with records := deliverRecord c.records mid data,
                   message_callbacks := eraseKey mid c.message_callbacks }
        else c
    | _ => c

/-- Embedding of the `on_error` handler (lines 161-164). -/
def on_error (c : MCPClient) : MCPClient :=
  { c with ws_connected := false, connection_status := "Error" }

/-- Embedding of the `on_close` handler (lines 166-169). -/
def on_close (c : MCPClient) : MCPClient :=
  { c with ws_connected := false, connection_status := "Disconnected" }

/-- Embedding of the `on_open` handler (lines 171-174). -/
def on_open (c : MCPClient) : MCPClient :=
  { c with ws_connected := true, connection_status := "Connected" }

/-- A dict of the form returned on the error paths of `send_message`. -/
def errDict (s : String) : Json :=
  .obj [("error", .str s)]

/-- Lines 190-191: when the caller's message has no `id` key or a falsy one,
a fresh UUID string is written into the same dict under `id`. -/
def assign_id (message : Dict) (fresh : String) : Dict :=
  match dictGet message "id" with
  | none => dictSet message "id" (.str fresh)
  | some v => if v.falsy then dictSet message "id" (.str fresh) else message

/-- Outcome of one `requests.post` attempt, as observed by the `except`
clause of lines 227-237: either a 2xx response with a parseable JSON body
(`raise_for_status` passes, `response.json()` returns the body), or a
`requests.exceptions.RequestException` (connection refused, timeout, or the
non-2xx `HTTPError` raised by `raise_for_status`) carrying its message. -/
inductive HttpOutcome where
  | ok (body : Json)
  | exc (e : String)

/-- Outcomes of the external interactions of one WebSocket-path call:
`fresh_id` is the value of `str(uuid.uuid4())`; `connected k` is the value of
the volatile `ws_connected` flag at the k-th read performed after
`connect_websocket` is invoked (the flag is written concurrently by the
background thread's `on_open` / `on_error` / `on_close`); `send_exc` is the
exception raised by `self.ws.send`, if any; `reply` is the frame data with
which the receive loop invoked this call's callback before the timeout, or
`none` when `event.wait(self.timeout)` timed out. -/
structure WSCallEnv where
  fresh_id : String
  connected : Nat → Bool
  send_exc : Option String
  reply : Option Json

/-- Number of `time.sleep(0.5)` calls performed by the readiness loop
`for _ in range(n): if self.ws_connected: break; time.sleep(0.5)`
(lines 199-202), when its i-th check reads `connected i`. -/
def poll_sleeps (connected : Nat → Bool) : Nat → Nat → Nat
  | _, 0 => 0
  | i, Nat.succ n => if connected i then 0 else 1 + poll_sleeps connected (i + 1) n

/-- Observable outcome of one `send_message` call: the final client state,
the caller's message dict after the call, the dicts written to the wire (one
per `ws.send` or `requests.post`), the sleeps performed (milliseconds), and
the result — `Except.ok` for a normal `return`, `Except.error` for an
uncaught Python exception unwinding out of `send_message`. -/
structure SendResult where
  client : MCPClient
  message : Dict
  sent : List Dict
  sleeps : List Nat
  result : Except String Json

/-- Embedding of the HTTP retry loop (lines 226-242):
`for attempt in range(max_retries + 1)`, where `outcomes a` is the outcome of
the post on attempt `a`.  Returns the posted dicts, the sleeps (milliseconds),
and the returned value; falling off the loop (impossible for fuel
`max_retries + 1 ≥ 1`) returns Python's implicit `None`. -/
def http_attempts (max_retries retry_delay : Nat) (message : Dict)
    (outcomes : Nat → HttpOutcome) : Nat → Nat → List Dict × List Nat × Json
  | _, 0 => ([], [], Json.null)
  | a, Nat.succ n =>
    match outcomes a with
    | .ok body => ([message], [], body)
    | .exc e =>
        if a < max_retries then
          let rest := http_attempts max_retries retry_delay message outcomes (a + 1) n
          (message :: rest.1, retry_delay * 1000 :: rest.2.1, rest.2.2)
        else
          ([message],
           [],
           errDict ("HTTP request failed after " ++ toString (max_retries + 1) ++
                    " attempts: " ++ e))

/-- Embedding of `MCPClient.send_message` (lines 189-242).  The WebSocket
branch: if `ws_connected` is unset, call `connect_websocket` and poll the
flag up to 10 times at 0.5 s, then re-check it; on failure return the
connect-error dict without registering a callback.  Otherwise register the
callback under `message["id"]`, send the frame, and wait on the event: a
timeout returns the timed-out error dict (leaving the callback registered),
a delivered reply is returned after the receive loop has signalled the event
and removed the callback.  An exception from `self.ws.send` is uncaught.
The HTTP branch runs the retry loop. -/
def send_message (c : MCPClient) (msg : Dict) (env : WSCallEnv)
    (http : Nat → HttpOutcome) : SendResult :=
  let message := assign_id msg env.fresh_id
  if c.connection_type = "WebSocket" then
    let phase :=
      if c.ws_connected then (c, ([] : List Nat), true)
      else
        let c1 := connect_websocket c
        let s := poll_sleeps env.connected 0 10
        (c1, List.replicate s 500,
         env.connected (if s < 10 then s + 1 else 10))
    if phase.2.2 = false then
      { client := phase.1, message := message, sent := [], sleeps := phase.2.1,
        result := .ok (errDict "Failed to connect to WebSocket") }
    else
      let mid := (dictGet message "id").getD .null
      let c2 := { phase.1 with
                    message_callbacks := phase.1.message_callbacks ++ [mid],
                    records := recordSet phase.1.records mid ⟨.obj [], false⟩ }
      match env.send_exc with
      | some e =>
          { client := c2, message := message, sent := [], sleeps := phase.2.1,
            result := .error e }
      | none =>
        match env.reply with
        | none =>
            { client := c2, message := message, sent := [message],
              sleeps := phase.2.1, result := .ok (errDict "Request timed out") }
        | some data =>
            { client := { c2 with
                            message_callbacks := eraseKey mid c2.message_callbacks,
                            records := deliverRecord c2.records mid data },
              message := message, sent := [message], sleeps := phase.2.1,
              result := .ok data }
  else
    let run := http_attempts c.max_retries c.retry_delay message http 0
                 (c.max_retries + 1)
    { client := c, message := message, sent := run.1, sleeps := run.2.1,
      result := .ok run.2.2 }

/-- Message built by `MCPClient.list_workflows` (lines 244-255). -/
def list_workflows_message : Dict :=
  [("type", .str "message"), ("name", .str "listWorkflows"),
   ("data", .obj [("operation", .str "listWorkflows"),
                  ("workflowIds", .str "null"),
                  ("parameters", .str "null")])]

/-- Message built by `MCPClient.search_workflows` (lines 257-268). -/
def search_workflows_message : Dict :=
  [("type", .str "message"), ("name", .str "searchWorkflows"),
   ("data", .obj [("operation", .str "searchWorkflows"),
                  ("workflowIds", .str "null"),
                  ("parameters", .str "null")])]

/-- Message built by `MCPClient.add_workflow` (lines 270-281). -/
def add_workflow_message (workflow_ids : String) : Dict :=
  [("type", .str "message"), ("name", .str "addWorkflow"),
   ("data", .obj [("operation", .str "addWorkflow"),
                  ("workflowIds", .str workflow_ids),
                  ("parameters", .str "null")])]

/-- Message built by `MCPClient.remove_workflow` (lines 283-294). -/
def remove_workflow_message (workflow_ids : String) : Dict :=
  [("type", .str "message"), ("name", .str "removeWorkflow"),
   ("data", .obj [("operation", .str "removeWorkflow"),
                  ("workflowIds", .str workflow_ids),
                  ("parameters", .str "null")])]

/-- Message built by `MCPClient.execute_workflow` (lines 296-307). -/
def execute_workflow_message (workflow_id : String) (parameters : Json) : Dict :=
  [("type", .str "message"), ("name", .str "executeWorkflow"),
   ("data", .obj [("operation", .str "executeWorkflow"),
                  ("workflowIds", .str workflow_id),
                  ("parameters", .str (Json.dumps parameters))])]

/-- Message built by `MCPClient.custom_command` (lines 309-316). -/
def custom_command_message (command_name : String) (data : Json) : Dict :=
  [("type", .str "message"), ("name", .str command_name), ("data", data)]

/-- Embedding of `MCPClient.list_workflows`. -/
def list_workflows (c : MCPClient) (env : WSCallEnv)
    (http : Nat → HttpOutcome) : SendResult :=
  send_message c list_workflows_message env http

/-- Embedding of `MCPClient.search_workflows`. -/
def search_workflows (c : MCPClient) (env : WSCallEnv)
    (http : Nat → HttpOutcome) : SendResult :=
  send_message c search_workflows_message env http

/-- Embedding of `MCPClient.add_workflow`. -/
def add_workflow (c : MCPClient) (workflow_ids : String) (env : WSCallEnv)
    (http : Nat → HttpOutcome) : SendResult :=
  send_message c (add_workflow_message workflow_ids) env http

/-- Embedding of `MCPClient.remove_workflow`. -/
def remove_workflow (c : MCPClient) (workflow_ids : String) (env : WSCallEnv)
    (http : Nat → HttpOutcome) : SendResult :=
  send_message c (remove_workflow_message workflow_ids) env http

/-- Embedding of `MCPClient.execute_workflow`. -/
def execute_workflow (c : MCPClient) (workflow_id : String) (parameters : Json)
    (env : WSCallEnv) (http : Nat → HttpOutcome) : SendResult :=
  send_message c (execute_workflow_message workflow_id parameters) env http

/-- Embedding of `MCPClient.custom_command`. -/
def custom_command (c : MCPClient) (command_name : String) (data : Json)
    (env : WSCallEnv) (http : Nat → HttpOutcome) : SendResult :=
  send_message c (custom_command_message command_name data) env http

/-- The payload shape of one row of the operation-contract table in the
specification (spec section 4.4): modelled from the spec's words, for
comparison with the messages the source builds. -/
def contract_payload (operation workflowIds parameters : String) : Json :=
  .obj [("operation", .str operation),
        ("workflowIds", .str workflowIds),
        ("parameters", .str parameters)]

/-- Correlation id under which a call's callback is registered: the `id`
field of the message after `assign_id`. -/
def sent_id (msg : Dict) (fresh : String) : Json :=
  (dictGet (assign_id msg fresh) "id").getD .null

/-!
Concrete instances used to evaluate the claims on explicit inputs.
-/

/-- A client configured for HTTP with the source defaults. -/
def httpClient : MCPClient :=
  { server_url := "http://localhost:5678/api/mcp", api_key := none,
    connection_type := "HTTP", timeout := 30, max_retries := 3, retry_delay := 1,
    ws := none, ws_connected := false, message_callbacks := [], records := [],
    connection_status := "Disconnected", connect_attempts := 0 }

/-- A client configured for WebSocket with an established connection and an
empty pending-call table. -/
def wsClient : MCPClient :=
  { server_url := "http://localhost:5678/api/mcp", api_key := none,
    connection_type := "WebSocket", timeout := 30, max_retries := 3, retry_delay := 1,
    ws := some "ws://localhost:5678/api/mcp", ws_connected := true,
    message_callbacks := [], records := [],
    connection_status := "Connected", connect_attempts := 1 }

/-- The WebSocket client with one call (id `"m1"`) currently pending. -/
def pendingClient : MCPClient :=
  { wsClient with
      message_callbacks := [.str "m1"],
      records := [(.str "m1", ⟨.obj [], false⟩)] }

/-- The WebSocket client with two calls (ids `"a"`, `"b"`) pending. -/
def twoPendingClient : MCPClient :=
  { wsClient with
      message_callbacks := [.str "a", .str "b"],
      records := [(.str "a", ⟨.obj [], false⟩), (.str "b", ⟨.obj [], false⟩)] }

/-- The WebSocket client before any connection is opened. -/
def wsDownClient : MCPClient :=
  { wsClient with
      ws := none, ws_connected := false,
      connection_status := "Disconnected", connect_attempts := 0 }

/-- Call outcomes for a connected socket whose server never replies: the
fresh id is `"m1"`, the write succeeds, and the wait times out. -/
def timeoutEnv : WSCallEnv :=
  { fresh_id := "m1", connected := fun _ => true, send_exc := none, reply := none }

/-- Call outcomes where the connection never becomes ready. -/
def neverEnv : WSCallEnv :=
  { fresh_id := "m2", connected := fun _ => false, send_exc := none, reply := none }

/-- Call outcomes where the socket write raises (closed under the caller). -/
def brokenSendEnv : WSCallEnv :=
  { fresh_id := "m1", connected := fun _ => true,
    send_exc := some "Connection is already closed.", reply := none }

/-- An HTTP server refusing every attempt at the network level. -/
def failHttp : Nat → HttpOutcome := fun _ => .exc "Connection refused"

/-- An HTTP server answering 2xx with a well-formed reply that itself carries
an application-level `error` field. -/
def errorReplyHttp : Nat → HttpOutcome :=
  fun _ => .ok (.obj [("id", .str "m2"), ("error", .str "workflow not found")])

/-- Whether a call completed by a normal `return` (as opposed to an uncaught
exception unwinding out of `send_message`). -/
def resultOk : Except String Json → Bool
  | .ok _ => true
  | .error _ => false

/-!
Basic lemmas about the JSON value equality and the dict-key operations.
-/

mutual

theorem Json.beq_refl : ∀ a : Json, Json.beq a a = true
  | .null => rfl
  | .bool b => by simp [Json.beq]
  | .num n => by simp [Json.beq]
  | .str s => by simp [Json.beq]
  | .arr xs => by simpa [Json.beq] using beqArr_refl xs
  | .obj fs => by simpa [Json.beq] using beqFields_refl fs

theorem beqArr_refl : ∀ xs : List Json, beqArr xs xs = true
  | [] => rfl
  | x :: xs => by simp [beqArr, Json.beq_refl x, beqArr_refl xs]

theorem beqFields_refl : ∀ fs : List (String × Json), beqFields fs fs = true
  | [] => rfl
  | (k, v) :: fs => by simp [beqFields, Json.beq_refl v, beqFields_refl fs]

end

mutual

theorem Json.beq_eq : ∀ a b : Json, Json.beq a b = true → a = b
  | .null, b => by cases b <;> simp [Json.beq]
  | .bool x, b => by cases b <;> simp [Json.beq]
  | .num x, b => by cases b <;> simp [Json.beq]
  | .str x, b => by cases b <;> simp [Json.beq]
  | .arr xs, b => by
      cases b <;> simp [Json.beq]
      exact fun h => beqArr_eq xs _ h
  | .obj fs, b => by
      cases b <;> simp [Json.beq]
      exact fun h => beqFields_eq fs _ h

theorem beqArr_eq : ∀ xs ys : List Json, beqArr xs ys = true → xs = ys
  | [], [] => fun _ => rfl
  | [], _ :: _ => by simp [beqArr]
  | _ :: _, [] => by simp [beqArr]
  | x :: xs, y :: ys => by
      simp only [beqArr, Bool.and_eq_true, List.cons.injEq]
      exact fun h => ⟨Json.beq_eq x y h.1, beqArr_eq xs ys h.2⟩

theorem beqFields_eq : ∀ fs gs : List (String × Json), beqFields fs gs = true → fs = gs
  | [], [] => fun _ => rfl
  | [], _ :: _ => by simp [beqFields]
  | _ :: _, [] => by simp [beqFields]
  | (k, v) :: fs, (l, w) :: gs => by
      simp only [beqFields, Bool.and_eq_true, List.cons.injEq, Prod.mk.injEq, beq_iff_eq]
      exact fun h => ⟨⟨h.1.1, Json.beq_eq v w h.1.2⟩, beqFields_eq fs gs h.2⟩

end

theorem Json.beq_iff_eq (a b : Json) : Json.beq a b = true ↔ a = b :=
  ⟨Json.beq_eq a b, fun h => h ▸ Json.beq_refl a⟩

theorem Json.beq_false_of_ne {a b : Json} (h : a ≠ b) : Json.beq a b = false := by
  cases hb : Json.beq a b
  · rfl
  · exact absurd (Json.beq_eq a b hb) h

theorem jmem_append_self (x : Json) (l : List Json) : jmem x (l ++ [x]) = true := by
  induction l with
  | nil => simp [jmem, Json.beq_refl]
  | cons y ys ih => simp [jmem, ih]

theorem eraseKey_append_self (x : Json) (l : List Json) (h : jmem x l = false) :
    eraseKey x (l ++ [x]) = l := by
  induction l with
  | nil => simp [eraseKey, Json.beq_refl]
  | cons y ys ih =>
      simp only [jmem, Bool.or_eq_false_iff] at h
      simp [eraseKey, h.1, ih h.2]

theorem jmem_eraseKey_ne (k x : Json) (l : List Json) (hne : k ≠ x) :
    jmem k (eraseKey x l) = jmem k l := by
  induction l with
  | nil => rfl
  | cons y ys ih =>
      cases hyx : Json.beq y x with
      | true =>
          have hy : y = x := Json.beq_eq _ _ hyx
          subst hy
          have hk : Json.beq y k = false := Json.beq_false_of_ne (Ne.symm hne)
          simp [eraseKey, hyx, jmem, hk]
      | false =>
          simp [eraseKey, hyx, jmem, ih]

theorem recordGet_recordSet_self (recs : List (Json × PendingCall)) (key : Json)
    (pc : PendingCall) : recordGet (recordSet recs key pc) key = some pc := by
  induction recs with
  | nil => simp [recordSet, recordGet, Json.beq_refl]
  | cons e rest ih =>
      cases hbeq : Json.beq e.1 key with
      | true => simp [recordSet, recordGet, hbeq, Json.beq_refl]
      | false => simp [recordSet, recordGet, hbeq, ih]

theorem recordGet_recordSet_ne (recs : List (Json × PendingCall)) (key k : Json)
    (pc : PendingCall) (hne : k ≠ key) :
    recordGet (recordSet recs key pc) k = recordGet recs k := by
  induction recs with
  | nil => simp [recordSet, recordGet, Json.beq_false_of_ne (Ne.symm hne)]
  | cons e rest ih =>
      cases hbeq : Json.beq e.1 key with
      | true =>
          have he : e.1 = key := Json.beq_eq _ _ hbeq
          have hk : Json.beq key k = false := Json.beq_false_of_ne (Ne.symm hne)
          simp [recordSet, recordGet, hbeq, hk, he ▸ hk]
      | false => simp [recordSet, recordGet, hbeq, ih]

theorem recordGet_deliver_self (recs : List (Json × PendingCall)) (key data : Json)
    (pc : PendingCall) (h : recordGet recs key = some pc) :
    recordGet (deliverRecord recs key data) key = some ⟨data, true⟩ := by
  induction recs with
  | nil => simp [recordGet] at h
  | cons e rest ih =>
      cases hbeq : Json.beq e.1 key with
      | true => simp [deliverRecord, recordGet, hbeq]
      | false =>
          simp only [recordGet, hbeq] at h
          simp [deliverRecord, recordGet, hbeq, ih h]

theorem recordGet_deliver_ne (recs : List (Json × PendingCall)) (key data k : Json)
    (hne : k ≠ key) :
    recordGet (deliverRecord recs key data) k = recordGet recs k := by
  induction recs with
  | nil => rfl
  | cons e rest ih =>
      cases hbeq : Json.beq e.1 key with
      | true =>
          have he : e.1 = key := Json.beq_eq _ _ hbeq
          have hk : Json.beq e.1 k = false := by
            rw [he]; exact Json.beq_false_of_ne (Ne.symm hne)
          simp [deliverRecord, recordGet, hbeq, hk]
      | false => simp [deliverRecord, recordGet, hbeq, ih]

theorem dictGet_dictSet_self (d : Dict) (key : String) (v : Json) :
    dictGet (dictSet d key v) key = some v := by
  induction d with
  | nil => simp [dictSet, dictGet]
  | cons e rest ih =>
      cases hbeq : e.1 == key with
      | true => simp [dictSet, dictGet, hbeq]
      | false => simp [dictSet, dictGet, hbeq, ih]

theorem poll_sleeps_all_false (connected : Nat → Bool)
    (h : ∀ k, connected k = false) : ∀ n i, poll_sleeps connected i n = n := by
  intro n
  induction n with
  | zero => intro i; rfl
  | succ m ih => intro i; simp [poll_sleeps, h i, ih, Nat.add_comm]

/-!
Characterisations of `send_message` in each scenario of interest.
-/

theorem send_ws_timeout_eq (c : MCPClient) (msg : Dict) (env : WSCallEnv)
    (http : Nat → HttpOutcome)
    (hty : c.connection_type = "WebSocket") (hconn : c.ws_connected = true)
    (hsend : env.send_exc = none) (hrep : env.reply = none) :
    send_message c msg env http =
      { client := { c with
            message_callbacks := c.message_callbacks ++ [sent_id msg env.fresh_id],
            records := recordSet c.records (sent_id msg env.fresh_id) ⟨.obj [], false⟩ },
        message := assign_id msg env.fresh_id,
        sent := [assign_id msg env.fresh_id],
        sleeps := [],
        result := .ok (errDict "Request timed out") } := by
  simp [send_message, hty, hconn, hsend, hrep, sent_id]

theorem send_ws_exc_eq (c : MCPClient) (msg : Dict) (env : WSCallEnv)
    (http : Nat → HttpOutcome) (e : String)
    (hty : c.connection_type = "WebSocket") (hconn : c.ws_connected = true)
    (hsend : env.send_exc = some e) :
    send_message c msg env http =
      { client := { c with
            message_callbacks := c.message_callbacks ++ [sent_id msg env.fresh_id],
            records := recordSet c.records (sent_id msg env.fresh_id) ⟨.obj [], false⟩ },
        message := assign_id msg env.fresh_id,
        sent := [],
        sleeps := [],
        result := .error e } := by
  simp [send_message, hty, hconn, hsend, sent_id]

theorem send_ws_reply_eq (c : MCPClient) (msg : Dict) (env : WSCallEnv)
    (http : Nat → HttpOutcome) (data : Json)
    (hty : c.connection_type = "WebSocket") (hconn : c.ws_connected = true)
    (hsend : env.send_exc = none) (hrep : env.reply = some data) :
    send_message c msg env http =
      { client := { c with
            message_callbacks :=
              eraseKey (sent_id msg env.fresh_id)
                (c.message_callbacks ++ [sent_id msg env.fresh_id]),
            records :=
              deliverRecord
                (recordSet c.records (sent_id msg env.fresh_id) ⟨.obj [], false⟩)
                (sent_id msg env.fresh_id) data },
        message := assign_id msg env.fresh_id,
        sent := [assign_id msg env.fresh_id],
        sleeps := [],
        result := .ok data } := by
  simp [send_message, hty, hconn, hsend, hrep, sent_id]

theorem send_ws_connfail_eq (c : MCPClient) (msg : Dict) (env : WSCallEnv)
    (http : Nat → HttpOutcome)
    (hty : c.connection_type = "WebSocket") (hconn : c.ws_connected = false)
    (hnever : ∀ k, env.connected k = false) :
    send_message c msg env http =
      { client := connect_websocket c,
        message := assign_id msg env.fresh_id,
        sent := [],
        sleeps := List.replicate 10 500,
        result := .ok (errDict "Failed to connect to WebSocket") } := by
  simp [send_message, hty, hconn, hnever, poll_sleeps_all_false env.connected hnever]

theorem send_http_eq (c : MCPClient) (msg : Dict) (env : WSCallEnv)
    (http : Nat → HttpOutcome) (hty : c.connection_type ≠ "WebSocket") :
    send_message c msg env http =
      { client := c,
        message := assign_id msg env.fresh_id,
        sent := (http_attempts c.max_retries c.retry_delay
                  (assign_id msg env.fresh_id) http 0 (c.max_retries + 1)).1,
        sleeps := (http_attempts c.max_retries c.retry_delay
                  (assign_id msg env.fresh_id) http 0 (c.max_retries + 1)).2.1,
        result := .ok (http_attempts c.max_retries c.retry_delay
                  (assign_id msg env.fresh_id) http 0 (c.max_retries + 1)).2.2 } := by
  simp [send_message, hty]

theorem http_attempts_all_fail (r d : Nat) (m : Dict) (outcomes : Nat → HttpOutcome)
    (e : Nat → String) (houtc : ∀ i, outcomes i = .exc (e i)) :
    ∀ n a, a + n = r →
      http_attempts r d m outcomes a (n + 1) =
        (List.replicate (n + 1) m, List.replicate n (d * 1000),
         errDict ("HTTP request failed after " ++ toString (r + 1) ++
                  " attempts: " ++ e r)) := by
  intro n
  induction n with
  | zero =>
      intro a ha
      have har : a = r := by omega
      subst har
      simp [http_attempts, houtc a]
  | succ k ih =>
      intro a ha
      have halt : a < r := by omega
      have expand : http_attempts r d m outcomes a (k + 1 + 1) =
          (m :: (http_attempts r d m outcomes (a + 1) (k + 1)).1,
           d * 1000 :: (http_attempts r d m outcomes (a + 1) (k + 1)).2.1,
           (http_attempts r d m outcomes (a + 1) (k + 1)).2.2) := by
        simp only [http_attempts]
        rw [houtc a]
        simp [halt]
      rw [expand, ih (a + 1) (by omega)]
      simp [List.replicate_succ]

theorem http_attempts_sent (r d : Nat) (m : Dict) (o : Nat → HttpOutcome) :
    ∀ fuel a, ∀ x ∈ (http_attempts r d m o a fuel).1, x = m := by
  intro fuel
  induction fuel with
  | zero => intro a x hx; simp [http_attempts] at hx
  | succ n ih =>
      intro a x hx
      rcases ho : o a with body | e
      · simp [http_attempts, ho] at hx
        exact hx
      · by_cases hlt : a < r
        · simp [http_attempts, ho, hlt] at hx
          rcases hx with hx | hx
          · exact hx
          · exact ih (a + 1) x hx
        · simp [http_attempts, ho, hlt] at hx
          exact hx

theorem send_message_message_eq (c : MCPClient) (msg : Dict) (env : WSCallEnv)
    (http : Nat → HttpOutcome) :
    (send_message c msg env http).message = assign_id msg env.fresh_id := by
  unfold send_message
  dsimp only
  repeat' split
  all_goals rfl

theorem send_message_sent_eq (c : MCPClient) (msg : Dict) (env : WSCallEnv)
    (http : Nat → HttpOutcome) :
    ∀ m ∈ (send_message c msg env http).sent, m = assign_id msg env.fresh_id := by
  unfold send_message
  dsimp only
  repeat' split
  all_goals intro m hm
  all_goals first
    | (exact http_attempts_sent c.max_retries c.retry_delay _ http _ 0 m hm)
    | exact hm
    | (simp at hm; exact hm)
    | (simp at hm)

theorem assign_id_of_falsy (msg : Dict) (fresh : String)
    (h : ((dictGet msg "id").getD .null).falsy = true) :
    assign_id msg fresh = dictSet msg "id" (.str fresh) := by
  unfold assign_id
  cases hg : dictGet msg "id" with
  | none => rfl
  | some v =>
      rw [hg] at h
      simp only [Option.getD] at h
      simp [h]

/-!
Claim theorems.
-/

/-- C1 counterexample: a WebSocket call that times out returns the timed-out
error, yet its callback entry is still present in the pending-call table —
the source removes the entry only in the receive handler, never on timeout,
so the claimed removal does not happen. -/
theorem ws_timeout_keeps_entry_cex :
    (send_message wsClient [] timeoutEnv failHttp).result =
      .ok (errDict "Request timed out") ∧
    (send_message wsClient [] timeoutEnv failHttp).client.message_callbacks =
      [.str "m1"] := by
  constructor <;> rfl

/-- C1 (amended): on timeout the call returns the timed-out error but leaves
its callback registered; a reply with the same id arriving later is matched
by the receive loop, which delivers it into the orphaned record — observed by
no caller, since the call already returned — and only then removes the entry,
restoring the table. -/
theorem ws_timeout_stale_entry (c : MCPClient) (msg : Dict) (env : WSCallEnv)
    (http : Nat → HttpOutcome) (fs : List (String × Json))
    (hty : c.connection_type = "WebSocket") (hconn : c.ws_connected = true)
    (hsend : env.send_exc = none) (hrep : env.reply = none)
    (hfresh : jmem (sent_id msg env.fresh_id) c.message_callbacks = false)
    (hlate : (dictGet fs "id").getD .null = sent_id msg env.fresh_id) :
    (send_message c msg env http).result = .ok (errDict "Request timed out") ∧
    jmem (sent_id msg env.fresh_id)
      (send_message c msg env http).client.message_callbacks = true ∧
    (on_message (send_message c msg env http).client
        (.ok (.obj fs))).message_callbacks = c.message_callbacks ∧
    recordGet (on_message (send_message c msg env http).client
        (.ok (.obj fs))).records (sent_id msg env.fresh_id) =
      some ⟨.obj fs, true⟩ := by
  rw [send_ws_timeout_eq c msg env http hty hconn hsend hrep]
  have hmem : jmem (sent_id msg env.fresh_id)
      (c.message_callbacks ++ [sent_id msg env.fresh_id]) = true :=
    jmem_append_self _ _
  refine ⟨rfl, hmem, ?_, ?_⟩
  · simp only [on_message, hlate]
    simp only [hmem, if_true]
    exact eraseKey_append_self _ _ hfresh
  · simp only [on_message, hlate]
    simp only [hmem, if_true]
    exact recordGet_deliver_self _ _ _ ⟨.obj [], false⟩
      (recordGet_recordSet_self c.records _ _)

/-- C1 witness: the connected client, a message without id (fresh id "m1"),
a timed-out wait, then a late reply frame with id "m1". -/
theorem ws_timeout_stale_entry_witness :
    (send_message wsClient [] timeoutEnv failHttp).result =
      .ok (errDict "Request timed out") ∧
    jmem (.str "m1")
      (send_message wsClient [] timeoutEnv failHttp).client.message_callbacks = true ∧
    (on_message (send_message wsClient [] timeoutEnv failHttp).client
        (.ok (.obj [("id", .str "m1"), ("response", .str "late")]))).message_callbacks =
      [] ∧
    recordGet (on_message (send_message wsClient [] timeoutEnv failHttp).client
        (.ok (.obj [("id", .str "m1"), ("response", .str "late")]))).records
      (.str "m1") =
      some ⟨.obj [("id", .str "m1"), ("response", .str "late")], true⟩ :=
  ws_timeout_stale_entry wsClient [] timeoutEnv failHttp
    [("id", .str "m1"), ("response", .str "late")] rfl rfl rfl rfl rfl rfl

/-- C2 counterexample: the close and error handlers run with one call
pending, and afterwards that call's entry is still registered and its
completion event unsignalled — the pending call was not failed with a
connection-lost error, contradicting the claim. -/
theorem close_leaves_pending_cex :
    pendingClient.message_callbacks = [.str "m1"] ∧
    (on_close pendingClient).message_callbacks = [.str "m1"] ∧
    recordGet (on_close pendingClient).records (.str "m1") =
      some ⟨.obj [], false⟩ ∧
    (on_error pendingClient).message_callbacks = [.str "m1"] ∧
    recordGet (on_error pendingClient).records (.str "m1") =
      some ⟨.obj [], false⟩ :=
  ⟨rfl, rfl, rfl, rfl, rfl⟩

/-- C2 (amended): the error and close handlers only clear the connected flag
and set the displayed status to Error or Disconnected; the pending-call table
and every pending call's record are left untouched, so a blocked caller is
released only by its own `event.wait` timeout, not by the transition. -/
theorem on_error_on_close_frame (c : MCPClient) :
    (on_error c).ws_connected = false ∧
    (on_error c).connection_status = "Error" ∧
    (on_error c).message_callbacks = c.message_callbacks ∧
    (on_error c).records = c.records ∧
    (on_close c).ws_connected = false ∧
    (on_close c).connection_status = "Disconnected" ∧
    (on_close c).message_callbacks = c.message_callbacks ∧
    (on_close c).records = c.records :=
  ⟨rfl, rfl, rfl, rfl, rfl, rfl, rfl, rfl⟩

/-- C3: for an HTTP-configured client whose server fails every attempt at the
network level, `send_message` makes exactly `max_retries + 1` request
attempts, sleeps `retry_delay` seconds between consecutive attempts, and
returns an error value whose message states the number of attempts made and
the last underlying failure. -/
theorem http_retry_exhaustion (c : MCPClient) (msg : Dict) (env : WSCallEnv)
    (outcomes : Nat → HttpOutcome) (e : Nat → String)
    (hty : c.connection_type ≠ "WebSocket")
    (houtc : ∀ i, outcomes i = .exc (e i)) :
    (send_message c msg env outcomes).sent =
      List.replicate (c.max_retries + 1) (assign_id msg env.fresh_id) ∧
    (send_message c msg env outcomes).sleeps =
      List.replicate c.max_retries (c.retry_delay * 1000) ∧
    (send_message c msg env outcomes).result =
      .ok (errDict ("HTTP request failed after " ++ toString (c.max_retries + 1) ++
           " attempts: " ++ e c.max_retries)) := by
  rw [send_http_eq c msg env outcomes hty]
  rw [http_attempts_all_fail c.max_retries c.retry_delay _ outcomes e houtc
        c.max_retries 0 (by omega)]
  exact ⟨rfl, rfl, rfl⟩

/-- C3 witness: the default HTTP client against an always-refusing server
makes 4 attempts with 3 one-second sleeps and reports both in its error. -/
theorem http_retry_exhaustion_witness :
    (send_message httpClient list_workflows_message neverEnv failHttp).sent =
      List.replicate 4 (assign_id list_workflows_message "m2") ∧
    (send_message httpClient list_workflows_message neverEnv failHttp).sleeps =
      List.replicate 3 1000 ∧
    (send_message httpClient list_workflows_message neverEnv failHttp).result =
      .ok (errDict "HTTP request failed after 4 attempts: Connection refused") :=
  http_retry_exhaustion httpClient list_workflows_message neverEnv failHttp
    (fun _ => "Connection refused") (by decide) (fun _ => rfl)

/-- C4 counterexample: with the transport configured as WebSocket and the
connection already established, a connect call is not a no-op: the client
state changes, one more WebSocketApp plus background connection attempt being
started. -/
theorem connect_not_idempotent_cex :
    wsClient.connection_type = "WebSocket" ∧
    wsClient.ws_connected = true ∧
    connect_websocket wsClient ≠ wsClient ∧
    (connect_websocket wsClient).connect_attempts =
      wsClient.connect_attempts + 1 := by
  refine ⟨rfl, rfl, ?_, rfl⟩
  intro h
  exact absurd (congrArg MCPClient.connect_attempts h) (by decide)

/-- C4 (amended): `connect_websocket` checks only the configured transport
kind, never the connection state: whenever the kind is WebSocket — even while
already connected — it replaces the WebSocketApp with a new one at the
rewritten URL and starts one more background connection attempt, leaving the
connected flag, the pending table and the records unchanged; it is a no-op
only when the kind is not WebSocket. -/
theorem connect_websocket_always_reconnects (c : MCPClient)
    (hty : c.connection_type = "WebSocket") :
    (connect_websocket c).connect_attempts = c.connect_attempts + 1 ∧
    (connect_websocket c).ws = some (ws_rewrite c.server_url) ∧
    (connect_websocket c).ws_connected = c.ws_connected ∧
    (connect_websocket c).message_callbacks = c.message_callbacks ∧
    (connect_websocket c).records = c.records := by
  refine ⟨?_, ?_, ?_, ?_, ?_⟩ <;> simp [connect_websocket, hty]

/-- C4 witness: the already-connected client. -/
theorem connect_websocket_always_reconnects_witness :
    (connect_websocket wsClient).connect_attempts = 2 ∧
    (connect_websocket wsClient).ws = some (ws_rewrite wsClient.server_url) ∧
    (connect_websocket wsClient).ws_connected = true ∧
    (connect_websocket wsClient).message_callbacks = [] ∧
    (connect_websocket wsClient).records = [] :=
  connect_websocket_always_reconnects wsClient rfl

/-- C5 counterexample: the socket closes between the readiness check and the
write, `self.ws.send` raises, and the exception unwinds out of
`send_message` instead of being returned as a structured error value. -/
theorem ws_send_exception_escapes_cex :
    resultOk (send_message wsClient [] brokenSendEnv failHttp).result = false ∧
    (send_message wsClient [] brokenSendEnv failHttp).result =
      Except.error "Connection is already closed." :=
  ⟨rfl, rfl⟩

/-- C5 (amended): HTTP network failures, WebSocket connect failures, timeouts
and replies are all returned as values, so no exception escapes on those
paths; only an exception raised by the WebSocket write itself (which the
source does not guard) unwinds out of `send_message`. -/
theorem send_message_no_uncaught_exc (c : MCPClient) (msg : Dict)
    (env : WSCallEnv) (http : Nat → HttpOutcome)
    (hsend : env.send_exc = none) :
    resultOk (send_message c msg env http).result = true := by
  unfold send_message
  dsimp only
  repeat' split
  all_goals simp_all [resultOk]

/-- C5 witness: a timed-out WebSocket call still completes by a normal
return. -/
theorem send_message_no_uncaught_exc_witness :
    resultOk (send_message wsClient [] timeoutEnv failHttp).result = true :=
  send_message_no_uncaught_exc wsClient [] timeoutEnv failHttp rfl

/-- C6: on the HTTP path, a successfully-decoded reply is returned
immediately after a single attempt with no sleeps and no state change,
whatever the body contains (in particular an `error` field); retries happen
only on network-level failures. -/
theorem http_success_no_retry (c : MCPClient) (msg : Dict) (env : WSCallEnv)
    (outcomes : Nat → HttpOutcome) (body : Json)
    (hty : c.connection_type ≠ "WebSocket") (h0 : outcomes 0 = .ok body) :
    (send_message c msg env outcomes).result = .ok body ∧
    (send_message c msg env outcomes).sent = [assign_id msg env.fresh_id] ∧
    (send_message c msg env outcomes).sleeps = [] ∧
    (send_message c msg env outcomes).client = c := by
  rw [send_http_eq c msg env outcomes hty]
  have hrun : http_attempts c.max_retries c.retry_delay (assign_id msg env.fresh_id)
      outcomes 0 (c.max_retries + 1) = ([assign_id msg env.fresh_id], [], body) := by
    simp [http_attempts, h0]
  rw [hrun]
  exact ⟨rfl, rfl, rfl, rfl⟩

/-- C6 witness: a reply carrying an `error` field is returned verbatim after
one attempt, with zero retries consumed. -/
theorem http_success_no_retry_witness :
    (send_message httpClient
        (execute_workflow_message "wf-1" (.obj [("x", .num 1)]))
        neverEnv errorReplyHttp).result =
      .ok (.obj [("id", .str "m2"), ("error", .str "workflow not found")]) ∧
    (send_message httpClient
        (execute_workflow_message "wf-1" (.obj [("x", .num 1)]))
        neverEnv errorReplyHttp).sent =
      [assign_id (execute_workflow_message "wf-1" (.obj [("x", .num 1)])) "m2"] ∧
    (send_message httpClient
        (execute_workflow_message "wf-1" (.obj [("x", .num 1)]))
        neverEnv errorReplyHttp).sleeps = [] ∧
    (send_message httpClient
        (execute_workflow_message "wf-1" (.obj [("x", .num 1)]))
        neverEnv errorReplyHttp).client = httpClient :=
  http_success_no_retry httpClient
    (execute_workflow_message "wf-1" (.obj [("x", .num 1)])) neverEnv errorReplyHttp
    (.obj [("id", .str "m2"), ("error", .str "workflow not found")])
    (by decide) rfl

/-- C7: each named operation builds exactly the payload of its contract row
(`listWorkflows`/`searchWorkflows` with both fields `"null"`, `addWorkflow`/
`removeWorkflow` with the caller-supplied id string — in particular
`addWorkflow "a,b"` — and `executeWorkflow` with the JSON-encoded parameter
object), and returns whatever `send_message` returns, unmodified. -/
theorem named_operations_contract (c : MCPClient) (ids wid : String) (params : Json)
    (env : WSCallEnv) (http : Nat → HttpOutcome) :
    dictGet list_workflows_message "data" =
      some (contract_payload "listWorkflows" "null" "null") ∧
    dictGet search_workflows_message "data" =
      some (contract_payload "searchWorkflows" "null" "null") ∧
    dictGet (add_workflow_message ids) "data" =
      some (contract_payload "addWorkflow" ids "null") ∧
    dictGet (remove_workflow_message ids) "data" =
      some (contract_payload "removeWorkflow" ids "null") ∧
    dictGet (execute_workflow_message wid params) "data" =
      some (contract_payload "executeWorkflow" wid (Json.dumps params)) ∧
    dictGet (add_workflow_message "a,b") "data" =
      some (.obj [("operation", .str "addWorkflow"), ("workflowIds", .str "a,b"),
                  ("parameters", .str "null")]) ∧
    list_workflows c env http = send_message c list_workflows_message env http ∧
    search_workflows c env http = send_message c search_workflows_message env http ∧
    add_workflow c ids env http = send_message c (add_workflow_message ids) env http ∧
    remove_workflow c ids env http =
      send_message c (remove_workflow_message ids) env http ∧
    execute_workflow c wid params env http =
      send_message c (execute_workflow_message wid params) env http :=
  ⟨rfl, rfl, rfl, rfl, rfl, rfl, rfl, rfl, rfl, rfl, rfl⟩

/-- C8: a WebSocket call issued while disconnected first invokes connect and
polls readiness 10 times at a fixed 0.5 s interval; if the connection never
becomes ready, it returns the failed-to-connect error, registers no waiter,
and writes nothing to the wire. -/
theorem ws_connect_failure (c : MCPClient) (msg : Dict) (env : WSCallEnv)
    (http : Nat → HttpOutcome)
    (hty : c.connection_type = "WebSocket") (hconn : c.ws_connected = false)
    (hnever : ∀ k, env.connected k = false) :
    (send_message c msg env http).result =
      .ok (errDict "Failed to connect to WebSocket") ∧
    (send_message c msg env http).client.message_callbacks = c.message_callbacks ∧
    (send_message c msg env http).client.records = c.records ∧
    (send_message c msg env http).client.connect_attempts = c.connect_attempts + 1 ∧
    (send_message c msg env http).sleeps = List.replicate 10 500 ∧
    (send_message c msg env http).sent = [] := by
  rw [send_ws_connfail_eq c msg env http hty hconn hnever]
  simp [connect_websocket, hty]

/-- C8 witness on the disconnected WebSocket client. -/
theorem ws_connect_failure_witness :
    (send_message wsDownClient list_workflows_message neverEnv failHttp).result =
      .ok (errDict "Failed to connect to WebSocket") ∧
    (send_message wsDownClient list_workflows_message neverEnv
        failHttp).client.message_callbacks = [] ∧
    (send_message wsDownClient list_workflows_message neverEnv
        failHttp).client.records = [] ∧
    (send_message wsDownClient list_workflows_message neverEnv
        failHttp).client.connect_attempts = 1 ∧
    (send_message wsDownClient list_workflows_message neverEnv failHttp).sleeps =
      List.replicate 10 500 ∧
    (send_message wsDownClient list_workflows_message neverEnv failHttp).sent = [] :=
  ws_connect_failure wsDownClient list_workflows_message neverEnv failHttp
    rfl rfl (fun _ => rfl)

/-- C9: the receive handler is total on every decode outcome: a decode
failure leaves the state unchanged; a dict frame whose id matches a
registered callback has the reply delivered into that call's record, its
completion signalled, and its table entry removed, while every other id's
entry and record are untouched; a frame matching no pending call leaves the
state unchanged. -/
theorem on_message_dispatch (c : MCPClient) (err : String) (fs : List (String × Json)) :
    on_message c (.error err) = c ∧
    (jmem ((dictGet fs "id").getD .null) c.message_callbacks = false →
        on_message c (.ok (.obj fs)) = c) ∧
    (jmem ((dictGet fs "id").getD .null) c.message_callbacks = true →
        (on_message c (.ok (.obj fs))).message_callbacks =
          eraseKey ((dictGet fs "id").getD .null) c.message_callbacks ∧
        (∀ pc, recordGet c.records ((dictGet fs "id").getD .null) = some pc →
            recordGet (on_message c (.ok (.obj fs))).records
              ((dictGet fs "id").getD .null) = some ⟨.obj fs, true⟩) ∧
        (∀ k, k ≠ (dictGet fs "id").getD .null →
            jmem k (on_message c (.ok (.obj fs))).message_callbacks =
              jmem k c.message_callbacks ∧
            recordGet (on_message c (.ok (.obj fs))).records k =
              recordGet c.records k)) := by
  refine ⟨rfl, ?_, ?_⟩
  · intro h
    simp [on_message, h]
  · intro h
    refine ⟨by simp [on_message, h], ?_, ?_⟩
    · intro pc hpc
      simp only [on_message, h, if_true]
      exact recordGet_deliver_self c.records _ (.obj fs) pc hpc
    · intro k hk
      constructor
      · simp only [on_message, h, if_true]
        exact jmem_eraseKey_ne k _ c.message_callbacks hk
      · simp only [on_message, h, if_true]
        exact recordGet_deliver_ne c.records _ (.obj fs) k hk

/-- C9 witness: with calls "a" and "b" pending, a reply for "a" is delivered
and removed while "b" is untouched, and a decode failure changes nothing. -/
theorem on_message_dispatch_witness :
    on_message twoPendingClient (.error "bad json") = twoPendingClient ∧
    (on_message twoPendingClient
        (.ok (.obj [("id", .str "a"), ("response", .num 1)]))).message_callbacks =
      eraseKey (.str "a") twoPendingClient.message_callbacks ∧
    recordGet (on_message twoPendingClient
        (.ok (.obj [("id", .str "a"), ("response", .num 1)]))).records (.str "a") =
      some ⟨.obj [("id", .str "a"), ("response", .num 1)], true⟩ ∧
    jmem (.str "b") (on_message twoPendingClient
        (.ok (.obj [("id", .str "a"), ("response", .num 1)]))).message_callbacks =
      jmem (.str "b") twoPendingClient.message_callbacks ∧
    recordGet (on_message twoPendingClient
        (.ok (.obj [("id", .str "a"), ("response", .num 1)]))).records (.str "b") =
      recordGet twoPendingClient.records (.str "b") := by
  have h := on_message_dispatch twoPendingClient "bad json"
      [("id", .str "a"), ("response", .num 1)]
  have hb : (Json.str "b") ≠
      (dictGet [("id", Json.str "a"), ("response", Json.num 1)] "id").getD .null := by
    intro heq
    exact absurd (Json.str.inj heq) (by decide)
  exact ⟨h.1, (h.2.2 rfl).1, (h.2.2 rfl).2.1 ⟨.obj [], false⟩ rfl,
         ((h.2.2 rfl).2.2 (.str "b") hb).1, ((h.2.2 rfl).2.2 (.str "b") hb).2⟩

/-- C10: when the caller's message has no `id` key or a falsy id,
`send_message` writes a fresh UUID string into the caller's dict under `id`
before sending: the caller's message after the call is that same dict updated
in place, it carries the generated id, and every dict placed on the wire is
that updated dict itself. -/
theorem send_message_assigns_fresh_id (c : MCPClient) (msg : Dict) (env : WSCallEnv)
    (http : Nat → HttpOutcome)
    (h : ((dictGet msg "id").getD .null).falsy = true) :
    (send_message c msg env http).message = dictSet msg "id" (.str env.fresh_id) ∧
    dictGet (send_message c msg env http).message "id" = some (.str env.fresh_id) ∧
    ∀ m ∈ (send_message c msg env http).sent,
      m = (send_message c msg env http).message := by
  have hset := assign_id_of_falsy msg env.fresh_id h
  have hmsg := send_message_message_eq c msg env http
  refine ⟨hmsg.trans hset, ?_, ?_⟩
  · rw [hmsg, hset]
    exact dictGet_dictSet_self msg "id" (.str env.fresh_id)
  · intro m hm
    rw [hmsg]
    exact send_message_sent_eq c msg env http m hm

/-- C10 witness: a message with no id field gets the fresh id written into
the caller's dict, observable there after the call. -/
theorem send_message_assigns_fresh_id_witness :
    ((dictGet list_workflows_message "id").getD .null).falsy = true ∧
    (send_message wsClient list_workflows_message timeoutEnv failHttp).message =
      dictSet list_workflows_message "id" (.str "m1") ∧
    dictGet (send_message wsClient list_workflows_message timeoutEnv
        failHttp).message "id" = some (.str "m1") :=
  ⟨rfl,
   (send_message_assigns_fresh_id wsClient list_workflows_message timeoutEnv
      failHttp rfl).1,
   (send_message_assigns_fresh_id wsClient list_workflows_message timeoutEnv
      failHttp rfl).2.1⟩

end PCM
